import Mathlib

/-!
Shallow embedding of the match-simulation core of the text-soccer repository
(files under src/text_calcio/), together with theorems settling the frozen
claims about its specification.

Python floats are modelled as rationals, in-place mutation as explicit state
passing, and every random draw as an explicit oracle argument, so that all
definitions stay executable.
-/

namespace TextCalcio

/-- Embeds MatchPhase (src/text_calcio/state/match_phase.py and the
Match.Phase enum in src/text_calcio/state/match.py): the five ordered
phases of a match. -/
inductive MatchPhase where
  | FIRST_HALF
  | SECOND_HALF
  | FIRST_EXTRA_TIME
  | SECOND_EXTRA_TIME
  | PENALTIES
  deriving DecidableEq, Repr

namespace MatchPhase

/-- Ordinal of the phase in declaration order (the enum value / id). -/
def id : MatchPhase → Nat
  | FIRST_HALF => 0
  | SECOND_HALF => 1
  | FIRST_EXTRA_TIME => 2
  | SECOND_EXTRA_TIME => 3
  | PENALTIES => 4

/-- Nominal duration in minutes of each phase (45, 45, 15, 15, 0). -/
def duration_minutes : MatchPhase → Nat
  | FIRST_HALF => 45
  | SECOND_HALF => 45
  | FIRST_EXTRA_TIME => 15
  | SECOND_EXTRA_TIME => 15
  | PENALTIES => 0

end MatchPhase

/-- The four action outcome types (ActionType in the source). -/
inductive ActionType where
  | goal
  | no_goal
  | penalty
  | own_goal
  deriving DecidableEq, Repr

/-- The three tie-break policies accepted by MatchConfig.tie_breaker. -/
inductive TieBreaker where
  | allow_tie
  | on_tie_extra_time_and_penalties
  | on_tie_penalties
  deriving DecidableEq, Repr

/-- The six penalty directions (PenaltyDirection in
src/text_calcio/state/penalty.py): \x7bleft,center,right\x7d x \x7btop,low\x7d. -/
inductive PenaltyDirection where
  | left_top
  | left_low
  | center_top
  | center_low
  | right_top
  | right_low
  deriving DecidableEq, Repr

namespace PenaltyDirection

/-- The horizontal component of a direction (the part before the underscore,
obtained in the source by splitting the direction string at the underscore). -/
def horizontal : PenaltyDirection → String
  | left_top => "left"
  | left_low => "left"
  | center_top => "center"
  | center_low => "center"
  | right_top => "right"
  | right_low => "right"

end PenaltyDirection

/-- Embeds the Penalty record of src/text_calcio/state/penalty.py. -/
structure Penalty where
  player_kicking : String
  goalkeeper : String
  kick_direction : PenaltyDirection
  dive_direction : PenaltyDirection
  is_goal : Bool
  is_out : Bool
  deriving DecidableEq, Repr

namespace Penalty

/-- Embeds Penalty.determine_penalty_outcome. The single draw of
np.random.random() is passed in as the argument random_value; the source
compares the same draw first against the kick-error chance 0.1 and, in the
same-horizontal-zone branch, against 0.5. Returns (is_goal, is_out). -/
def determine_penalty_outcome (kick_direction dive_direction : PenaltyDirection)
    (random_value : ℚ) : Bool × Bool :=
  let kick_error_chance : ℚ := 1 / 10
  if random_value < kick_error_chance then
    (false, true)
  else if kick_direction = dive_direction then
    (false, false)
  else if kick_direction.horizontal ≠ dive_direction.horizontal then
    (true, false)
  else
    (decide (random_value < 1 / 2), false)

/-- Embeds Penalty.create_player_kicked_penalty: resolves the outcome from
the two directions (and the random draw) and builds the Penalty record. -/
def create_player_kicked_penalty (player_kicking goalkeeper : String)
    (kick_direction dive_direction : PenaltyDirection) (random_value : ℚ) : Penalty :=
  let outcome := determine_penalty_outcome kick_direction dive_direction random_value
  { player_kicking := player_kicking
    goalkeeper := goalkeeper
    kick_direction := kick_direction
    dive_direction := dive_direction
    is_goal := outcome.1
    is_out := outcome.2 }

end Penalty

/-- Embeds ActionBlueprint (src/text_calcio/loaders/action.py): the content
contract returned by the narration provider. player_evaluation is the
ordered list of (placeholder, delta) entries of the Python dict. -/
structure ActionBlueprint where
  action_type : ActionType
  use_var : Bool
  phrases : List String
  player_evaluation : List (String × Int)
  scorer_player : Option String
  assist_player : Option String
  deriving DecidableEq, Repr

/-- State of the format-string parser modelling Python's
string.Formatter().parse (CPython's MarkupIterator): scanning literal text,
just after an opening or closing brace seen in literal text (to resolve the
doubled-brace escapes), inside a field name (tracking whether the scan is
inside an index bracket, where every character is taken literally), just
after the conversion marker, just after the conversion character, or inside
a format spec (tracking nested-brace depth). Each state carries the field
name collected so far where one is being read. -/
inductive ParseState where
  | literal
  | afterLBrace
  | afterRBrace
  | name (inBracket : Bool) (acc : List Char)
  | conv1 (acc : List Char)
  | conv2 (acc : List Char)
  | spec (depth : Nat) (acc : List Char)
  deriving Repr

/-- Appends a completed field name to the keys of the rest of the string;
an empty field name (as in a bare pair of braces) yields no key, mirroring
the falsy-filter in extract_keys_from_format_string. -/
def emitKey (acc : List Char) (cont : Except String (List String)) :
    Except String (List String) :=
  match cont with
  | Except.error e => Except.error e
  | Except.ok ks => Except.ok (if acc.isEmpty then ks else String.mk acc :: ks)

/-- The field names of the replacement fields of a format string, in order,
or the ValueError message with which string.Formatter().parse rejects a
malformed format string. Follows CPython's parser: a brace in literal text
must be doubled ("Single brace" errors otherwise), a field must be closed
before the end of the string, a field name may not contain an opening brace
outside an index bracket, the conversion marker takes exactly one character
followed by a colon or closing brace, and a format spec balances nested
braces. -/
def parseFormatKeys : ParseState → List Char → Except String (List String)
  | ParseState.literal, [] => Except.ok []
  | ParseState.literal, c :: rest =>
    if c = '\x7b' then parseFormatKeys ParseState.afterLBrace rest
    else if c = '\x7d' then parseFormatKeys ParseState.afterRBrace rest
    else parseFormatKeys ParseState.literal rest
  | ParseState.afterLBrace, [] =>
    Except.error ("Single '\x7b' encountered in format string")
  | ParseState.afterLBrace, c :: rest =>
    if c = '\x7b' then parseFormatKeys ParseState.literal rest
    else if c = '\x7d' then parseFormatKeys ParseState.literal rest
    else if c = ':' then parseFormatKeys (ParseState.spec 0 []) rest
    else if c = '!' then parseFormatKeys (ParseState.conv1 []) rest
    else if c = '[' then parseFormatKeys (ParseState.name true [c]) rest
    else parseFormatKeys (ParseState.name false [c]) rest
  | ParseState.afterRBrace, [] =>
    Except.error ("Single '\x7d' encountered in format string")
  | ParseState.afterRBrace, c :: rest =>
    if c = '\x7d' then parseFormatKeys ParseState.literal rest
    else Except.error ("Single '\x7d' encountered in format string")
  | ParseState.name _ _, [] =>
    Except.error ("expected '\x7d' before end of string")
  | ParseState.name inBracket acc, c :: rest =>
    if inBracket then
      parseFormatKeys (ParseState.name (¬ (c = ']')) (acc ++ [c])) rest
    else if c = '\x7d' then
      emitKey acc (parseFormatKeys ParseState.literal rest)
    else if c = ':' then
      parseFormatKeys (ParseState.spec 0 acc) rest
    else if c = '!' then
      parseFormatKeys (ParseState.conv1 acc) rest
    else if c = '\x7b' then
      Except.error ("unexpected '\x7b' in field name")
    else if c = '[' then
      parseFormatKeys (ParseState.name true (acc ++ [c])) rest
    else
      parseFormatKeys (ParseState.name false (acc ++ [c])) rest
  | ParseState.conv1 _, [] =>
    Except.error ("end of string while looking for conversion specifier")
  | ParseState.conv1 acc, _ :: rest =>
    parseFormatKeys (ParseState.conv2 acc) rest
  | ParseState.conv2 _, [] =>
    Except.error ("unmatched '\x7b' in format spec")
  | ParseState.conv2 acc, c :: rest =>
    if c = '\x7d' then
      emitKey acc (parseFormatKeys ParseState.literal rest)
    else if c = ':' then
      parseFormatKeys (ParseState.spec 0 acc) rest
    else
      Except.error ("expected ':' after conversion specifier")
  | ParseState.spec _ _, [] =>
    Except.error ("unmatched '\x7b' in format spec")
  | ParseState.spec depth acc, c :: rest =>
    if c = '\x7b' then parseFormatKeys (ParseState.spec (depth + 1) acc) rest
    else if c = '\x7d' then
      if depth = 0 then emitKey acc (parseFormatKeys ParseState.literal rest)
      else parseFormatKeys (ParseState.spec (depth - 1) acc) rest
    else parseFormatKeys (ParseState.spec depth acc) rest

/-- Embeds extract_keys_from_format_string: the field names of the
\x7bplaceholder\x7d-style replacement fields of a format string, in order;
a malformed format string propagates string.Formatter().parse's
ValueError. -/
def extract_keys_from_format_string (format_str : String) :
    Except String (List String) :=
  parseFormatKeys ParseState.literal format_str.toList

/-- Embeds find_invalid_keys: the keys of the format string that are not
among the assignment keys; a malformed format string propagates the
parser's ValueError. -/
def find_invalid_keys (format_str : String) (assignment_keys : List String) :
    Except String (List String) :=
  match extract_keys_from_format_string format_str with
  | Except.error e => Except.error e
  | Except.ok keys =>
    Except.ok (keys.filter fun key => ¬ (key ∈ assignment_keys))

/-- Embeds get_player_valid_placeholders: atk_1..atk_4 and atk_goalie, then
def_1..def_4 and def_goalie. -/
def get_player_valid_placeholders : List String :=
  ((List.range 4).map fun i => "atk_" ++ toString (i + 1)) ++ ["atk_goalie"]
    ++ ((List.range 4).map fun i => "def_" ++ toString (i + 1)) ++ ["def_goalie"]

/-- Embeds get_all_valid_placeholders: the player placeholders plus referee,
stadium and the two team-name placeholders. -/
def get_all_valid_placeholders : List String :=
  get_player_valid_placeholders ++ ["referee", "stadium", "atk_team_name", "def_team_name"]

/-- A role name wrapped in braces, as built by the validation code. -/
def braced (role : String) : String := "\x7b" ++ role ++ "\x7d"

/-- The phrase-scanning loop of ActionBlueprint.validate: propagates the
parser's ValueError on a malformed phrase, fails on the first phrase
containing invalid keys (reproducing the source's error message), and
otherwise continues. -/
def validatePhrases (i : Nat) : List String → Except String Unit
  | [] => Except.ok ()
  | sentence :: rest =>
    match find_invalid_keys sentence get_all_valid_placeholders with
    | Except.error e => Except.error e
    | Except.ok inv_keys =>
      if inv_keys.length > 0 then
        Except.error ("In sentence " ++ toString i ++ " invalid keys were found: "
          ++ String.intercalate (", ") inv_keys ++ ". Sentence: " ++ sentence)
      else
        validatePhrases (i + 1) rest

/-- The evaluation-checking loop of ActionBlueprint.validate. -/
def validateEvaluations : List (String × Int) → Except String Unit
  | [] => Except.ok ()
  | (player, score) :: rest =>
    if ¬ (player ∈ get_player_valid_placeholders.map braced) then
      Except.error ("Invalid player evaluation placeholder: " ++ player)
    else if ¬ (-3 ≤ score ∧ score ≤ 3) then
      Except.error ("Invalid player evaluation mark: " ++ toString score)
    else
      validateEvaluations rest

/-- The scorer check of ActionBlueprint.validate: a present scorer must be a
brace-wrapped valid player placeholder. -/
def validateScorer (scorer_player : Option String) : Except String Unit :=
  match scorer_player with
  | some sc =>
    if ¬ (sc ∈ get_player_valid_placeholders.map braced) then
      Except.error ("Invalid goal_player placeholder: " ++ sc)
    else Except.ok ()
  | none => Except.ok ()

/-- The assist check of ActionBlueprint.validate: a present assist must be a
brace-wrapped valid player placeholder. -/
def validateAssist (assist_player : Option String) : Except String Unit :=
  match assist_player with
  | some asst =>
    if ¬ (asst ∈ get_player_valid_placeholders.map braced) then
      Except.error ("Invalid assist_player placeholder: " ++ asst)
    else Except.ok ()
  | none => Except.ok ()

namespace ActionBlueprint

/-- Embeds ActionBlueprint.validate: requires a scorer for goal actions,
rejects phrases with unrecognized placeholder keys, and checks that scorer,
assist and evaluation keys are brace-wrapped valid player placeholders with
evaluation marks in [-3, 3]. The checks run in source order and the first
failed one raises; successful validation returns unit. -/
def validate (bp : ActionBlueprint) : Except String Unit :=
  if bp.action_type = ActionType.goal ∧ bp.scorer_player = none then
    Except.error ("Action is type goal but no goal_player specified")
  else
    match validatePhrases 0 bp.phrases with
    | Except.error e => Except.error e
    | Except.ok _ =>
      match validateScorer bp.scorer_player with
      | Except.error e => Except.error e
      | Except.ok _ =>
        match validateAssist bp.assist_player with
        | Except.error e => Except.error e
        | Except.ok _ => validateEvaluations bp.player_evaluation

end ActionBlueprint

/-- Embeds ActionRequest (src/text_calcio/loaders/action.py). -/
structure ActionRequest where
  action_type : ActionType
  use_var : Bool
  deriving DecidableEq, Repr

/-- Embeds Team (src/text_calcio/state/team.py): static roster data, player
index 0 being the goalkeeper by convention. -/
structure Team where
  full_name : String
  familiar_name : String
  short_name : String
  color : String
  players : List String
  deriving DecidableEq, Repr

namespace Team

/-- Embeds Team.get_goalkeeper: the first roster entry (the source returns
None on an empty roster; rosters are always non-empty in practice and the
empty case is never evaluated by any theorem below). -/
def get_goalkeeper (t : Team) : String := t.players.headD ("")

/-- Roster size, as Python's len(team). -/
def size (t : Team) : Nat := t.players.length

end Team

/-- Embeds the Action dataclass of src/text_calcio/state/match.py (and the
identical MatchAction of src/text_calcio/state/match_action.py): a bound
goal attempt at a given clock tick. team_atk_id is 0 or 1. -/
structure Action where
  team_atk_id : Fin 2
  phase : MatchPhase
  minute : Nat
  type : ActionType
  goal_player : Option String
  assist_player : Option String
  players_evaluation : List (String × Int)
  sentences : List String
  player_assigments : List (String × String)
  support_assigments : List (String × String)
  penalty_info : Option Penalty
  deriving DecidableEq, Repr

namespace Action

/-- Constructs an Action, applying the dataclass __post_init__ logic: for a
penalty action the assist is cleared and the scorer is forced to None while
no Penalty is attached (otherwise to the kicker); for an own goal the assist
is cleared. -/
def mk' (team_atk_id : Fin 2) (phase : MatchPhase) (minute : Nat)
    (type : ActionType) (goal_player assist_player : Option String)
    (players_evaluation : List (String × Int)) (sentences : List String)
    (player_assigments support_assigments : List (String × String))
    (penalty_info : Option Penalty := none) : Action :=
  if type = ActionType.penalty then
    { team_atk_id := team_atk_id, phase := phase, minute := minute, type := type
      goal_player :=
        match penalty_info with
        | none => none
        | some p => some p.player_kicking
      assist_player := none
      players_evaluation := players_evaluation, sentences := sentences
      player_assigments := player_assigments
      support_assigments := support_assigments, penalty_info := penalty_info }
  else if type = ActionType.own_goal then
    { team_atk_id := team_atk_id, phase := phase, minute := minute, type := type
      goal_player := goal_player, assist_player := none
      players_evaluation := players_evaluation, sentences := sentences
      player_assigments := player_assigments
      support_assigments := support_assigments, penalty_info := penalty_info }
  else
    { team_atk_id := team_atk_id, phase := phase, minute := minute, type := type
      goal_player := goal_player, assist_player := assist_player
      players_evaluation := players_evaluation, sentences := sentences
      player_assigments := player_assigments
      support_assigments := support_assigments, penalty_info := penalty_info }

/-- Embeds Action.is_goal: true when a goal player is recorded. -/
def is_goal (a : Action) : Bool := a.goal_player.isSome

/-- Embeds Action.is_penalty_pending: a penalty action with no Penalty
attached yet. -/
def is_penalty_pending (a : Action) : Bool :=
  a.type = ActionType.penalty ∧ a.penalty_info = none

/-- Embeds Action.kick_penalty (mutation modelled as returning the updated
action): requires a pending penalty, attaches the Penalty, clears the assist
and sets the scorer to the kicker exactly when the penalty is a goal. -/
def kick_penalty (a : Action) (penalty : Penalty) : Except String Action :=
  if ¬ a.is_penalty_pending then
    Except.error ("There is no penalty to kick")
  else
    Except.ok { a with
      penalty_info := some penalty
      assist_player := none
      goal_player := if penalty.is_goal then some penalty.player_kicking else none }

/-- The player-role assignment map built by Action.create_from_blueprint in
src/text_calcio/state/match.py: atk_i maps to the i-th player of the random
order of the attacking team (one entry per non-goalkeeper roster slot),
atk_goalkeeper to the attacking goalkeeper, and likewise for the defenders.
The two random orders are passed in explicitly. -/
def mkPlayerAssignments (atk_team def_team : Team)
    (atk_player_order def_player_order : List String) : List (String × String) :=
  ((List.range (atk_team.size - 1)).map
      fun i => ("atk_" ++ toString (i + 1), atk_player_order.getD i ("")))
    ++ [("atk_goalkeeper", atk_team.get_goalkeeper)]
    ++ ((List.range (def_team.size - 1)).map
      fun i => ("def_" ++ toString (i + 1), def_player_order.getD i ("")))
    ++ [("def_goalkeeper", def_team.get_goalkeeper)]

/-- The support assignment map of create_from_blueprint: referee, stadium
name and the two familiar team names. -/
def mkSupportAssignments (atk_team def_team : Team) (referee stadium_name : String) :
    List (String × String) :=
  [("referee", referee), ("stadium", stadium_name),
   ("atk_team_name", atk_team.familiar_name),
   ("def_team_name", def_team.familiar_name)]

/-- Embeds Action.create_from_blueprint (src/text_calcio/state/match.py):
binds a blueprint to the two teams at a clock tick. The random player orders
drawn by Team.random_order are oracle inputs. -/
def create_from_blueprint (action_response : ActionBlueprint) (phase : MatchPhase)
    (minute : Nat) (atk_team_id : Fin 2) (teams : Team × Team)
    (referee stadium_name : String)
    (atk_player_order def_player_order : List String) : Action :=
  let atk_team := if atk_team_id = 0 then teams.1 else teams.2
  let def_team := if atk_team_id = 0 then teams.2 else teams.1
  Action.mk' atk_team_id phase minute action_response.action_type
    action_response.scorer_player action_response.assist_player
    action_response.player_evaluation action_response.phrases
    (mkPlayerAssignments atk_team def_team atk_player_order def_player_order)
    (mkSupportAssignments atk_team def_team referee stadium_name)

end Action

namespace MatchAction

/-- The player-role assignment map built by MatchAction.create_from_blueprint
in src/text_calcio/state/match_action.py: one atk_i entry per element of the
attacking random order (built with enumerate), the goalkeeper entries, and
likewise for the defenders. -/
def player_assignments (atk_team def_team : Team)
    (atk_player_order def_player_order : List String) : List (String × String) :=
  (atk_player_order.enum.map
      fun pi => ("atk_" ++ toString (pi.1 + 1), pi.2))
    ++ [("atk_goalkeeper", atk_team.get_goalkeeper)]
    ++ (def_player_order.enum.map
      fun pi => ("def_" ++ toString (pi.1 + 1), pi.2))
    ++ [("def_goalkeeper", def_team.get_goalkeeper)]

/-- Embeds MatchAction.create_from_blueprint
(src/text_calcio/state/match_action.py); identical to the Match-module
variant except for how the atk_i/def_i entries are enumerated. -/
def create_from_blueprint (action_response : ActionBlueprint) (phase : MatchPhase)
    (minute : Nat) (atk_team_id : Fin 2) (teams : Team × Team)
    (referee stadium_name : String)
    (atk_player_order def_player_order : List String) : Action :=
  let atk_team := if atk_team_id = 0 then teams.1 else teams.2
  let def_team := if atk_team_id = 0 then teams.2 else teams.1
  Action.mk' atk_team_id phase minute action_response.action_type
    action_response.scorer_player action_response.assist_player
    action_response.player_evaluation action_response.phrases
    (player_assignments atk_team def_team atk_player_order def_player_order)
    (Action.mkSupportAssignments atk_team def_team referee stadium_name)

end MatchAction

/-- Embeds MatchConfig (src/text_calcio/state/match_config.py, with the same
fields and checks as the copy in src/text_calcio/state/match.py): the
tunable simulation parameters. Floats are modelled as rationals. -/
structure MatchConfig where
  tie_breaker : TieBreaker
  goal_added_time_min : ℚ
  goal_added_time_max : ℚ
  penalty_added_time_min : ℚ
  penalty_added_time_max : ℚ
  var_added_time_min : ℚ
  var_added_time_max : ℚ
  standard_action_probability : ℚ
  extra_time_action_probability : ℚ
  added_time_action_probability : ℚ
  default_action_no_goal_probability : ℚ
  default_action_goal_probability : ℚ
  default_action_own_goal_probability : ℚ
  default_action_penalty_probability : ℚ
  default_action_var_probability : ℚ
  penalties_shoot_count : ℤ
  deriving DecidableEq, Repr

namespace MatchConfig

/-- Embeds MatchConfig.__post_init__: the four action-type probabilities
must be np.isclose to 1 (atol 1e-6 and numpy's default rtol 1e-5, so the
accepted deviation from 1 is 1e-6 + 1e-5), and every field whose name ends
in _probability must not exceed 1. A failed check raises (models the
construction of the dataclass, returning the config when the checks pass). -/
def mk' (tie_breaker : TieBreaker)
    (goal_added_time_min goal_added_time_max penalty_added_time_min
      penalty_added_time_max var_added_time_min var_added_time_max
      standard_action_probability extra_time_action_probability
      added_time_action_probability default_action_no_goal_probability
      default_action_goal_probability default_action_own_goal_probability
      default_action_penalty_probability default_action_var_probability : ℚ)
    (penalties_shoot_count : ℤ) : Except String MatchConfig :=
  let total_prob := default_action_no_goal_probability
    + default_action_goal_probability + default_action_own_goal_probability
    + default_action_penalty_probability
  if ¬ (|total_prob - 1| ≤ 1 / 1000000 + 1 / 100000) then
    Except.error ("Action type probabilities should sum to 1")
  else if standard_action_probability > 1 then
    Except.error ("Config standard_action_probability must be less than or equal to 1")
  else if extra_time_action_probability > 1 then
    Except.error ("Config extra_time_action_probability must be less than or equal to 1")
  else if added_time_action_probability > 1 then
    Except.error ("Config added_time_action_probability must be less than or equal to 1")
  else if default_action_no_goal_probability > 1 then
    Except.error ("Config default_action_no_goal_probability must be less than or equal to 1")
  else if default_action_goal_probability > 1 then
    Except.error ("Config default_action_goal_probability must be less than or equal to 1")
  else if default_action_own_goal_probability > 1 then
    Except.error ("Config default_action_own_goal_probability must be less than or equal to 1")
  else if default_action_penalty_probability > 1 then
    Except.error ("Config default_action_penalty_probability must be less than or equal to 1")
  else if default_action_var_probability > 1 then
    Except.error ("Config default_action_var_probability must be less than or equal to 1")
  else
    Except.ok
      { tie_breaker := tie_breaker
        goal_added_time_min := goal_added_time_min
        goal_added_time_max := goal_added_time_max
        penalty_added_time_min := penalty_added_time_min
        penalty_added_time_max := penalty_added_time_max
        var_added_time_min := var_added_time_min
        var_added_time_max := var_added_time_max
        standard_action_probability := standard_action_probability
        extra_time_action_probability := extra_time_action_probability
        added_time_action_probability := added_time_action_probability
        default_action_no_goal_probability := default_action_no_goal_probability
        default_action_goal_probability := default_action_goal_probability
        default_action_own_goal_probability := default_action_own_goal_probability
        default_action_penalty_probability := default_action_penalty_probability
        default_action_var_probability := default_action_var_probability
        penalties_shoot_count := penalties_shoot_count }

/-- The default field values of the MatchConfig dataclass. -/
def default : MatchConfig :=
  { tie_breaker := TieBreaker.on_tie_extra_time_and_penalties
    goal_added_time_min := 1 / 2
    goal_added_time_max := 3 / 2
    penalty_added_time_min := 3 / 4
    penalty_added_time_max := 7 / 4
    var_added_time_min := 1
    var_added_time_max := 2
    standard_action_probability := 15 / 100
    extra_time_action_probability := 30 / 100
    added_time_action_probability := 45 / 100
    default_action_no_goal_probability := 72 / 100
    default_action_goal_probability := 18 / 100
    default_action_own_goal_probability := 2 / 100
    default_action_penalty_probability := 8 / 100
    default_action_var_probability := 1 / 10
    penalties_shoot_count := 5 }

end MatchConfig

/-- Python's round() on a rational value: round half to even, as applied by
Match.get_added_time_minutes. -/
def pyRound (q : ℚ) : ℤ :=
  let f := q.floor
  let r := q - f
  if r < 1 / 2 then f
  else if 1 / 2 < r then f + 1
  else if f % 2 = 0 then f else f + 1

/-- Embeds the mutable state of Match (src/text_calcio/state/match.py):
clock, teams, flavor data, action history, per-phase accrued stoppage time
(a total map defaulting to 0, as the source's defaultdict) and the finished
flag. -/
structure Match where
  config : MatchConfig
  teams : Team × Team
  curr_phase : MatchPhase
  curr_minute : Nat
  stadium_name : String
  referee : String
  actions : List Action
  added_time : MatchPhase → ℚ
  finished : Bool

namespace Match

/-- Embeds Match.get_added_time_minutes for a given phase:
int(round(added_time[phase])). -/
def get_added_time_minutes (m : Match) (phase : MatchPhase) : ℤ :=
  pyRound (m.added_time phase)

/-- The score fold of Match.get_current_score, over an explicit action
history: each action recording a goal adds one to its attacking team. -/
def scoreOf (actions : List Action) : Nat × Nat :=
  actions.foldl
    (fun score action =>
      if action.is_goal then
        if action.team_atk_id = 0 then (score.1 + 1, score.2)
        else (score.1, score.2 + 1)
      else score)
    (0, 0)

/-- Embeds Match.get_current_score. -/
def get_current_score (m : Match) : Nat × Nat := scoreOf m.actions

/-- Embeds Match.get_current_action: the first recorded action happening at
the current minute of the current phase, if any. -/
def get_current_action (m : Match) : Option Action :=
  m.actions.find? fun action =>
    action.minute = m.curr_minute ∧ action.phase = m.curr_phase

/-- Embeds Match.is_penalty_pending: the current action exists and is an
unresolved penalty. -/
def is_penalty_pending (m : Match) : Bool :=
  match m.get_current_action with
  | none => false
  | some action => action.is_penalty_pending

/-- The empty penalty blueprint built inline by Match.next for shootout
kicks: type penalty, no VAR, no phrases, no evaluations, no scorer or
assist. -/
def penaltyShootoutBlueprint : ActionBlueprint :=
  { action_type := ActionType.penalty, use_var := false, phrases := []
    player_evaluation := [], scorer_player := none, assist_player := none }

/-- The random draws and provider responses consumed by one call of
Match.next, passed explicitly: the action-occurs draw, the attacker-choice
draw, the three uniform stoppage-time magnitudes (already drawn within their
configured ranges), the blueprint returned by the action provider, and the
two random player orders used to bind the action. -/
structure Oracle where
  actionDraw : ℚ
  atkDraw : ℚ
  goalAdded : ℚ
  penaltyAdded : ℚ
  varAdded : ℚ
  blueprint : ActionBlueprint
  atkOrder : List String
  defOrder : List String

/-- The shootout kick count of Match.next during PENALTIES:
(curr_minute - 1) // 2 with Python floor division. -/
def shootoutKicksTaken (minute : Nat) : ℤ := ((minute : ℤ) - 1).fdiv 2

/-- The kicks remaining for the current side during PENALTIES:
max(penalties_shoot_count - kicks_taken, 1). -/
def shootoutRemaining (config : MatchConfig) (minute : Nat) : ℤ :=
  max (config.penalties_shoot_count - shootoutKicksTaken minute) 1

/-- The side kicking at a shootout minute: (curr_minute + 1) % 2. -/
def shootoutKicking (minute : Nat) : Fin 2 :=
  ⟨(minute + 1) % 2, Nat.mod_lt _ (by norm_num)⟩

/-- The per-minute action probability consulted by the standard-minute
branch of Match.next (state/match.py lines 481-493): the added-time
probability when the current minute has reached the phase's nominal
duration, the extra-time probability in the two extra-time phases, and the
standard probability otherwise. -/
def actionProbability (config : MatchConfig) (phase : MatchPhase) (minute : Nat) : ℚ :=
  if minute ≥ phase.duration_minutes then
    config.added_time_action_probability
  else if phase = MatchPhase.FIRST_EXTRA_TIME ∨ phase = MatchPhase.SECOND_EXTRA_TIME then
    config.extra_time_action_probability
  else
    config.standard_action_probability

/-- Embeds Match.next (src/text_calcio/state/match.py lines 405-548),
returning both the call's outcome (ok, or the raised error message) and the
Match state after the call — on the pending-penalty error the state is the
unmodified receiver, since the source raises before mutating anything.
The branches follow the source: penalty-shootout minute, end-of-phase
transition, or standard minute. -/
def next (m : Match) (o : Oracle) : Except String Unit × Match :=
  if m.is_penalty_pending then
    (Except.error ("Penalty pending, could not advance to next action"), m)
  else
    let m₁ := { m with curr_minute := m.curr_minute + 1 }
    let score := m₁.get_current_score
    let is_tie : Prop := score.1 = score.2
    if m₁.curr_phase = MatchPhase.PENALTIES then
      let penalties_remaining : ℤ := shootoutRemaining m₁.config m₁.curr_minute
      let curr_team_kicking : Fin 2 := shootoutKicking m₁.curr_minute
      let score_curr_team : ℤ := if curr_team_kicking = 0 then (score.1 : ℤ) else (score.2 : ℤ)
      let score_other_team : ℤ := if curr_team_kicking = 0 then (score.2 : ℤ) else (score.1 : ℤ)
      if score_curr_team + penalties_remaining < score_other_team then
        (Except.ok (), { m₁ with finished := true })
      else
        (Except.ok (), { m₁ with
          actions := m₁.actions ++
            [Action.create_from_blueprint penaltyShootoutBlueprint m₁.curr_phase
              m₁.curr_minute curr_team_kicking m₁.teams m₁.referee m₁.stadium_name
              o.atkOrder o.defOrder] })
    else if (m₁.curr_minute : ℤ) >
        (m₁.curr_phase.duration_minutes : ℤ) + m₁.get_added_time_minutes m₁.curr_phase then
      if m₁.curr_phase = MatchPhase.FIRST_HALF then
        (Except.ok (), { m₁ with curr_minute := 1, curr_phase := MatchPhase.SECOND_HALF })
      else if m₁.curr_phase = MatchPhase.SECOND_HALF then
        if m₁.config.tie_breaker = TieBreaker.allow_tie then
          (Except.ok (), { m₁ with finished := true })
        else
          if is_tie then
            if m₁.config.tie_breaker = TieBreaker.on_tie_extra_time_and_penalties then
              (Except.ok (),
                { m₁ with curr_minute := 1, curr_phase := MatchPhase.FIRST_EXTRA_TIME })
            else
              (Except.ok (),
                { m₁ with curr_minute := 1, curr_phase := MatchPhase.PENALTIES })
          else
            (Except.ok (), { m₁ with finished := true })
      else if m₁.curr_phase = MatchPhase.FIRST_EXTRA_TIME then
        (Except.ok (),
          { m₁ with curr_minute := 1, curr_phase := MatchPhase.SECOND_EXTRA_TIME })
      else
        if is_tie then
          (Except.ok (),
            { m₁ with curr_minute := 1, curr_phase := MatchPhase.PENALTIES })
        else
          (Except.ok (), { m₁ with finished := true })
    else
      let action_pr := actionProbability m₁.config m₁.curr_phase m₁.curr_minute
      let do_action := o.actionDraw < action_pr
      let is_last_minute := (m₁.curr_minute : ℤ) =
        (m₁.curr_phase.duration_minutes : ℤ) + m₁.get_added_time_minutes m₁.curr_phase
      if do_action ∨ is_last_minute then
        let blueprint := o.blueprint
        let atk_team : Fin 2 :=
          if is_last_minute ∧ ¬ is_tie then
            if score.1 ≤ score.2 then 0 else 1
          else
            if o.atkDraw ≤ 1 / 2 then 1 else 0
        let base_added : ℚ :=
          if blueprint.action_type = ActionType.goal then o.goalAdded
          else if blueprint.action_type = ActionType.penalty then o.penaltyAdded
          else 0
        let var_added : ℚ := if blueprint.use_var then o.varAdded else 0
        let m₂ :=
          if m₁.curr_minute ≤ m₁.curr_phase.duration_minutes then
            { m₁ with added_time := fun p =>
                if p = m₁.curr_phase then m₁.added_time p + base_added + var_added
                else m₁.added_time p }
          else m₁
        (Except.ok (), { m₂ with
          actions := m₂.actions ++
            [Action.create_from_blueprint blueprint m₂.curr_phase m₂.curr_minute
              atk_team m₂.teams m₂.referee m₂.stadium_name o.atkOrder o.defOrder] })
      else
        (Except.ok (), m₁)

/-- Embeds Match.kick_penalty: requires a pending penalty at the current
tick and resolves it on the current action (mutation modelled as returning
the updated state). -/
def kick_penalty (m : Match) (penalty : Penalty) : Except String Match :=
  if ¬ m.is_penalty_pending then
    Except.error ("There is no penalty to kick")
  else
    match m.get_current_action with
    | none => Except.error ("There is no penalty to kick")
    | some curr_action =>
      match curr_action.kick_penalty penalty with
      | Except.error e => Except.error e
      | Except.ok updated =>
        Except.ok { m with
          actions := m.actions.map fun a => if a = curr_action then updated else a }

end Match

/-- The retry bound MAX_RETRIES of AsyncQueueActionProvider
(src/text_calcio/loaders/action_provider.py). -/
def MAX_RETRIES : Nat := 3

/-- One generate-and-validate attempt of the produce loop: the loader call
may fail (its outcome for attempt number i is supplied by the oracle gen);
on success the blueprint is validated, and only a validated blueprint is
returned. -/
def attemptOutcome (gen : Nat → Except String ActionBlueprint) (i : Nat) :
    Except String ActionBlueprint :=
  match gen i with
  | Except.error e => Except.error e
  | Except.ok generated_blueprint =>
    match generated_blueprint.validate with
    | Except.error e => Except.error e
    | Except.ok _ => Except.ok generated_blueprint

/-- The retry loop body of AsyncQueueActionProvider.produce for one request:
attempts attempt numbers first, first+1, ... while fuel lasts; the first
success wins, intermediate errors are swallowed, and the error of the last
attempt is re-raised. -/
def retryAttempts (gen : Nat → Except String ActionBlueprint) :
    Nat → Nat → Except String ActionBlueprint
  | _, 0 => Except.error ("no attempt was made")
  | first, 1 => attemptOutcome gen first
  | first, fuel + 2 =>
    match attemptOutcome gen first with
    | Except.ok bp => Except.ok bp
    | Except.error _ => retryAttempts gen (first + 1) (fuel + 1)

/-- Processing of one request by the produce loop: up to MAX_RETRIES
generate-and-validate attempts. -/
def processRequest (gen : Nat → Except String ActionBlueprint) :
    Except String ActionBlueprint :=
  retryAttempts gen 0 MAX_RETRIES

/-- The observable state of an AsyncQueueActionProvider: the pending request
queue, the result queue, and — when the background produce task has died
re-raising an exhausted-retries error — that error. asyncio queues deliver
items in FIFO order, so both queues are lists. -/
structure ProviderState where
  requests : List ActionRequest
  results : List ActionBlueprint
  worker_error : Option String
  deriving Repr

/-- One iteration of the produce loop over the provider state: a dead worker
does nothing, an empty request queue leaves the worker blocked, and
otherwise the head request is processed — a validated blueprint is put on
the result queue, while retry exhaustion re-raises, terminating the worker
task with the error. gen maps (request, attempt number) to the loader
outcome. -/
def produceStep (gen : ActionRequest → Nat → Except String ActionBlueprint)
    (s : ProviderState) : ProviderState :=
  match s.worker_error, s.requests with
  | some _, _ => s
  | none, [] => s
  | none, request :: rest =>
    match processRequest (gen request) with
    | Except.ok bp =>
      { s with requests := rest, results := s.results ++ [bp] }
    | Except.error e =>
      { s with requests := rest, worker_error := some e }

/-- What a waiting AsyncQueueActionProvider.get() call observes: it returns
the head of the result queue once one exists; while the result queue is
empty it stays suspended on the queue (an asyncio.Queue.get is woken only by
a put on that queue, not by the producing task failing), which is modelled
as none. -/
def getOutcome (s : ProviderState) : Option ActionBlueprint := s.results.head?

/-! Concrete sample data used to instantiate the theorems below. -/

/-- A sample five-player home team. -/
def teamA : Team :=
  { full_name := ("Alpha FC"), familiar_name := ("Alpha"), short_name := ("ALP")
    color := ("red"), players := [("Agk"), ("A1"), ("A2"), ("A3"), ("A4")] }

/-- A sample five-player away team. -/
def teamB : Team :=
  { full_name := ("Beta FC"), familiar_name := ("Beta"), short_name := ("BET")
    color := ("blue"), players := [("Bgk"), ("B1"), ("B2"), ("B3"), ("B4")] }

/-- A benign no-goal blueprint with no phrases. -/
def bpNoGoal : ActionBlueprint :=
  { action_type := ActionType.no_goal, use_var := false, phrases := []
    player_evaluation := [], scorer_player := none, assist_player := none }

/-- A baseline oracle: the action draw misses every configured probability,
the attacker draw picks team 1, all stoppage magnitudes are 1, and the
provider returns the benign blueprint. -/
def oracleNil : Match.Oracle :=
  { actionDraw := 9 / 10, atkDraw := 1 / 4, goalAdded := 1, penaltyAdded := 1
    varAdded := 1, blueprint := bpNoGoal
    atkOrder := [("A3"), ("A1"), ("A2"), ("A4")]
    defOrder := [("B2"), ("B1"), ("B3"), ("B4")] }

/-- A tied match at minute 45 of the second half with no accrued stoppage
time, under the default configuration. -/
def matchSecondHalfEnd : Match :=
  { config := MatchConfig.default, teams := (teamA, teamB)
    curr_phase := MatchPhase.SECOND_HALF, curr_minute := 45
    stadium_name := ("Stadio"), referee := ("Ref"), actions := []
    added_time := fun _ => 0, finished := false }

/-- A match about to play the first shootout kick (PENALTIES, minute 0,
about to advance to minute 1). -/
def matchShootoutStart : Match :=
  { matchSecondHalfEnd with curr_phase := MatchPhase.PENALTIES, curr_minute := 0 }

/-- A pending shootout penalty action at minute 1 of PENALTIES for team 0. -/
def pendingPenaltyAction : Action :=
  Action.mk' 0 MatchPhase.PENALTIES 1 ActionType.penalty none none [] [] [] [] none

/-- A match whose current tick has an unresolved penalty action. -/
def matchPendingPenalty : Match :=
  { matchSecondHalfEnd with
      curr_phase := MatchPhase.PENALTIES
      curr_minute := 1
      actions := [pendingPenaltyAction] }

/-- A shootout state where team 1 trails by three goals before its own
fifth kick (minute 9 next): team 0 has scored 4, team 1 has scored 1, so
team 1 cannot catch up with its single remaining kick. -/
def matchShootoutDecided : Match :=
  { matchSecondHalfEnd with
      curr_phase := MatchPhase.PENALTIES
      curr_minute := 9
      actions :=
        [{ pendingPenaltyAction with minute := 1, team_atk_id := 0, goal_player := some ("A1") },
         { pendingPenaltyAction with minute := 3, team_atk_id := 0, goal_player := some ("A2") },
         { pendingPenaltyAction with minute := 5, team_atk_id := 0, goal_player := some ("A3") },
         { pendingPenaltyAction with minute := 7, team_atk_id := 0, goal_player := some ("A4") },
         { pendingPenaltyAction with minute := 2, team_atk_id := 1, goal_player := some ("B1") }] }

/-- A match at minute 44 of the first half with two minutes of accrued
stoppage time: the next advance reaches minute 45, the last nominal minute,
which is neither beyond the phase end nor its final (47th) minute. -/
def matchFirstHalf44 : Match :=
  { matchSecondHalfEnd with
      curr_phase := MatchPhase.FIRST_HALF
      curr_minute := 44
      added_time := fun p => if p = MatchPhase.FIRST_HALF then 2 else 0 }

/-- A match at minute 9 of the first half with no accrued stoppage time. -/
def matchFirstHalf9 : Match :=
  { matchSecondHalfEnd with curr_phase := MatchPhase.FIRST_HALF, curr_minute := 9 }

/-- A blueprint whose only phrase uses the placeholder atk_goalkeeper — the
very placeholder the player binding assigns for the attacking goalkeeper. -/
def bpGoalkeeperPhrase : ActionBlueprint :=
  { bpNoGoal with phrases := [braced ("atk_goalkeeper")] }

/-- A blueprint whose only phrase uses the placeholder atk_goalie — accepted
by validation although the player binding never assigns it. -/
def bpGoaliePhrase : ActionBlueprint :=
  { bpNoGoal with phrases := [braced ("atk_goalie")] }

/-- A blueprint whose only phrase is a lone closing brace — a malformed
format string on which the parser raises. -/
def bpLoneBrace : ActionBlueprint :=
  { bpNoGoal with phrases := ["\x7d"] }

/-- The baseline oracle with an action draw of 0.3: at or above the default
standard probability 0.15, below the default added-time probability 0.45. -/
def oracleDraw30 : Match.Oracle := { oracleNil with actionDraw := 3 / 10 }

/-- The baseline oracle with an action draw of 0.05, below the default
standard probability 0.15. -/
def oracleDraw05 : Match.Oracle := { oracleNil with actionDraw := 5 / 100 }

/-- A loader oracle whose generate call fails on every attempt. -/
def genAlwaysFails : ActionRequest → Nat → Except String ActionBlueprint :=
  fun _ _ => Except.error ("content provider failed")

/-- A provider state holding one pending request, an empty result queue and
a live worker. -/
def providerOneRequest : ProviderState :=
  { requests := [{ action_type := ActionType.goal, use_var := false }]
    results := [], worker_error := none }

/-- The shootout early-termination condition of Match.next at a given (already
incremented) minute: the side kicking this minute cannot reach the other
side's score even by converting all its remaining kicks. -/
def shootoutCannotCatchUp (m : Match) (minute : Nat) : Prop :=
  (if Match.shootoutKicking minute = 0 then ((Match.scoreOf m.actions).1 : ℤ)
    else ((Match.scoreOf m.actions).2 : ℤ)) + Match.shootoutRemaining m.config minute <
  (if Match.shootoutKicking minute = 0 then ((Match.scoreOf m.actions).2 : ℤ)
    else ((Match.scoreOf m.actions).1 : ℤ))

/-! ## Theorems settling the claims -/

/-- The standard-minute branch of Match.next, characterized by the number of
recorded actions: within the phase (new minute not beyond duration plus
rounded stoppage), an action is appended exactly when the action draw is
below the consulted probability or the new minute is the phase's last
minute. Shared helper for the per-minute probability claims. -/
theorem next_standard_branch (m : Match) (o : Match.Oracle)
    (hpend : m.is_penalty_pending = false)
    (hnp : ¬ m.curr_phase = MatchPhase.PENALTIES)
    (hle : ((m.curr_minute + 1 : Nat) : ℤ) ≤
      (m.curr_phase.duration_minutes : ℤ) + pyRound (m.added_time m.curr_phase)) :
    (m.next o).2.actions.length =
      if o.actionDraw < Match.actionProbability m.config m.curr_phase (m.curr_minute + 1)
          ∨ ((m.curr_minute + 1 : Nat) : ℤ) =
            (m.curr_phase.duration_minutes : ℤ) + pyRound (m.added_time m.curr_phase)
      then m.actions.length + 1 else m.actions.length := by
  unfold Match.next
  rw [hpend]
  simp only [Bool.false_eq_true, if_false]
  simp only [Match.get_added_time_minutes, Match.get_current_score]
  rw [if_neg hnp]
  rw [if_neg (not_lt.mpr hle)]
  by_cases hcond : (o.actionDraw <
      Match.actionProbability m.config m.curr_phase (m.curr_minute + 1)
    ∨ ((m.curr_minute + 1 : Nat) : ℤ) =
      (m.curr_phase.duration_minutes : ℤ) + pyRound (m.added_time m.curr_phase))
  · rw [if_pos hcond, if_pos hcond]
    split_ifs <;> simp
  · rw [if_neg hcond, if_neg hcond]

/-- C4 (amended): in the standard-minute branch on a non-final minute, an
action occurs exactly when the draw is below the consulted probability,
which is the added-time probability for every minute greater than or equal
to the phase's nominal duration (including the last nominal minute itself),
the extra-time probability for earlier minutes of the extra-time phases,
and the standard probability otherwise (minutes up to 44 of the halves). -/
theorem action_probability_selection (m : Match) (o : Match.Oracle)
    (hpend : m.is_penalty_pending = false)
    (hnp : ¬ m.curr_phase = MatchPhase.PENALTIES)
    (hle : ((m.curr_minute + 1 : Nat) : ℤ) ≤
      (m.curr_phase.duration_minutes : ℤ) + pyRound (m.added_time m.curr_phase))
    (hnotlast : ¬ (((m.curr_minute + 1 : Nat) : ℤ) =
      (m.curr_phase.duration_minutes : ℤ) + pyRound (m.added_time m.curr_phase))) :
    ((m.next o).2.actions.length = m.actions.length + 1) ↔
      o.actionDraw <
        (if m.curr_minute + 1 ≥ m.curr_phase.duration_minutes then
          m.config.added_time_action_probability
        else if m.curr_phase = MatchPhase.FIRST_EXTRA_TIME
            ∨ m.curr_phase = MatchPhase.SECOND_EXTRA_TIME then
          m.config.extra_time_action_probability
        else m.config.standard_action_probability) := by
  rw [next_standard_branch m o hpend hnp hle]
  have hor : (o.actionDraw <
        Match.actionProbability m.config m.curr_phase (m.curr_minute + 1)
      ∨ ((m.curr_minute + 1 : Nat) : ℤ) =
        (m.curr_phase.duration_minutes : ℤ) + pyRound (m.added_time m.curr_phase)) ↔
      o.actionDraw < Match.actionProbability m.config m.curr_phase (m.curr_minute + 1) :=
    or_iff_left hnotlast
  simp only [hor]
  constructor
  · intro h
    split_ifs at h with hc
    · exact hc
    · exact absurd h (by simp)
  · intro h
    rw [if_pos]
    exact h

/-- Counterexample for C4: at the new minute 45 of the first half (within
the claim's "minute less than or equal to 45" range and not the phase's last
minute, stoppage being 2), the code consults the added-time probability, so
a draw of 0.3 — not below the standard probability 0.15 — still produces an
action. -/
theorem action_probability_cex :
    matchFirstHalf44.curr_phase = MatchPhase.FIRST_HALF
    ∧ matchFirstHalf44.curr_minute + 1 = 45
    ∧ ((matchFirstHalf44.curr_minute + 1 : Nat) : ℤ) <
        (MatchPhase.FIRST_HALF.duration_minutes : ℤ) +
          pyRound (matchFirstHalf44.added_time MatchPhase.FIRST_HALF)
    ∧ ¬ (oracleDraw30.actionDraw < matchFirstHalf44.config.standard_action_probability)
    ∧ (matchFirstHalf44.next oracleDraw30).2.actions.length =
        matchFirstHalf44.actions.length + 1 := by
  refine ⟨rfl, rfl,
    by norm_num [matchFirstHalf44, matchSecondHalfEnd, pyRound, Rat.floor,
      MatchPhase.duration_minutes],
    by norm_num [matchFirstHalf44, matchSecondHalfEnd, oracleDraw30, oracleNil,
      MatchConfig.default],
    ?_⟩
  rw [next_standard_branch matchFirstHalf44 oracleDraw30 (by decide) (by decide)
    (by norm_num [matchFirstHalf44, matchSecondHalfEnd, pyRound, Rat.floor,
      MatchPhase.duration_minutes])]
  rw [if_pos]
  left
  norm_num [Match.actionProbability, matchFirstHalf44, matchSecondHalfEnd,
    oracleDraw30, oracleNil, MatchConfig.default, MatchPhase.duration_minutes]

/-- Witness for C4 (amended): at minute 10 of the first half a draw of 0.05,
below the standard probability 0.15, produces an action. -/
theorem action_probability_selection_witness :
    (matchFirstHalf9.next oracleDraw05).2.actions.length =
      matchFirstHalf9.actions.length + 1 :=
  (action_probability_selection matchFirstHalf9 oracleDraw05 (by decide) (by decide)
    (by norm_num [matchFirstHalf9, matchSecondHalfEnd, pyRound, Rat.floor,
      MatchPhase.duration_minutes])
    (by norm_num [matchFirstHalf9, matchSecondHalfEnd, pyRound, Rat.floor,
      MatchPhase.duration_minutes])).mpr
    (by
      norm_num [matchFirstHalf9, matchSecondHalfEnd, oracleDraw05, oracleNil,
        MatchConfig.default, MatchPhase.duration_minutes]
      rw [if_neg (by simp : ¬ (MatchPhase.FIRST_HALF = MatchPhase.FIRST_EXTRA_TIME
        ∨ MatchPhase.FIRST_HALF = MatchPhase.SECOND_EXTRA_TIME))]
      norm_num)

/-- The phrase-scanning loop succeeds exactly when every phrase parses
without a ValueError and contains no invalid key. -/
theorem validatePhrases_ok (i : Nat) (ps : List String) :
    validatePhrases i ps = Except.ok () ↔
      ∀ s ∈ ps, find_invalid_keys s get_all_valid_placeholders = Except.ok [] := by
  induction ps generalizing i with
  | nil => simp [validatePhrases]
  | cons s rest ih =>
    simp only [validatePhrases]
    cases hf : find_invalid_keys s get_all_valid_placeholders with
    | error e =>
      constructor
      · intro hcontra
        exact absurd hcontra (by simp)
      · intro hall
        have := hall s (List.mem_cons_self s rest)
        rw [hf] at this
        exact absurd this (by simp)
    | ok inv_keys =>
      dsimp only
      by_cases h : inv_keys.length > 0
      · rw [if_pos h]
        constructor
        · intro hcontra
          exact absurd hcontra (by simp)
        · intro hall
          have := hall s (List.mem_cons_self s rest)
          rw [hf] at this
          have hnil : inv_keys = [] := by
            have := Except.ok.inj this
            exact this
          rw [hnil] at h
          simp at h
      · rw [if_neg h]
        have hnil : inv_keys = [] := List.length_eq_zero.mp (by omega)
        rw [ih (i + 1)]
        constructor
        · intro hall s' hs'
          rcases List.mem_cons.mp hs' with heq | hmem
          · rw [heq, hf, hnil]
          · exact hall s' hmem
        · intro hall s' hs'
          exact hall s' (List.mem_cons_of_mem s hs')

/-- The evaluation-checking loop succeeds exactly when every entry uses a
brace-wrapped valid player placeholder and a mark in [-3, 3]. -/
theorem validateEvaluations_ok (evs : List (String × Int)) :
    validateEvaluations evs = Except.ok () ↔
      ∀ pe ∈ evs, pe.1 ∈ get_player_valid_placeholders.map braced
        ∧ -3 ≤ pe.2 ∧ pe.2 ≤ 3 := by
  induction evs with
  | nil => simp [validateEvaluations]
  | cons pe rest ih =>
    obtain ⟨player, score⟩ := pe
    simp only [validateEvaluations]
    by_cases h1 : player ∈ get_player_valid_placeholders.map braced
    · rw [if_neg (by simp [h1])]
      by_cases h2 : -3 ≤ score ∧ score ≤ 3
      · rw [if_neg (by simp [h2.1, h2.2])]
        rw [ih]
        constructor
        · intro hall pe' hpe'
          rcases List.mem_cons.mp hpe' with heq | hmem
          · rw [heq] ; exact ⟨h1, h2.1, h2.2⟩
          · exact hall pe' hmem
        · intro hall pe' hpe'
          exact hall pe' (List.mem_cons_of_mem _ hpe')
      · rw [if_pos (by simpa using h2)]
        constructor
        · intro hcontra
          exact absurd hcontra (by simp)
        · intro hall
          exact absurd ⟨(hall _ (List.mem_cons_self _ _)).2.1,
            (hall _ (List.mem_cons_self _ _)).2.2⟩ h2
    · rw [if_pos (by simpa using h1)]
      constructor
      · intro hcontra
        exact absurd hcontra (by simp)
      · intro hall
        exact absurd (hall _ (List.mem_cons_self _ _)).1 h1

/-- The scorer check succeeds exactly when any present scorer is a
brace-wrapped valid player placeholder. -/
theorem validateScorer_ok (sp : Option String) :
    validateScorer sp = Except.ok () ↔
      ∀ sc, sp = some sc → sc ∈ get_player_valid_placeholders.map braced := by
  cases sp with
  | none => simp [validateScorer]
  | some sc =>
    simp only [validateScorer]
    by_cases h : sc ∈ get_player_valid_placeholders.map braced
    · rw [if_neg (by simp [h])]
      constructor
      · intro _ x heq
        exact (Option.some.inj heq) ▸ h
      · intro _
        rfl
    · rw [if_pos (by simpa using h)]
      constructor
      · intro hcontra
        exact absurd hcontra (by simp)
      · intro hall
        exact absurd (hall sc rfl) h

/-- The assist check succeeds exactly when any present assist is a
brace-wrapped valid player placeholder. -/
theorem validateAssist_ok (ap : Option String) :
    validateAssist ap = Except.ok () ↔
      ∀ asst, ap = some asst → asst ∈ get_player_valid_placeholders.map braced := by
  cases ap with
  | none => simp [validateAssist]
  | some asst =>
    simp only [validateAssist]
    by_cases h : asst ∈ get_player_valid_placeholders.map braced
    · rw [if_neg (by simp [h])]
      constructor
      · intro _ x heq
        exact (Option.some.inj heq) ▸ h
      · intro _
        rfl
    · rw [if_pos (by simpa using h)]
      constructor
      · intro hcontra
        exact absurd hcontra (by simp)
      · intro hall
        exact absurd (hall asst rfl) h

/-- An if-then-else of two errors is never ok, whatever the condition. -/
theorem ite_error_isOk {α : Type} (A : Prop) [Decidable A] (e1 e2 : String) :
    (if A then (Except.error e1 : Except String α) else Except.error e2).isOk = false := by
  split <;> rfl

/-- C6 (amended): constructing a MatchConfig fails exactly when the four
outcome-type probabilities are not np.isclose to 1 (deviation above
1e-6 + 1e-5, numpy's atol plus default rtol) or some field named
*_probability is strictly greater than 1; negative values are not checked,
so a negative probability field that leaves the four-way sum at 1 is
accepted. -/
theorem matchconfig_validation (tb : TieBreaker)
    (g1 g2 p1 p2 v1 v2 sap etap atap ng gp og pp vp : ℚ) (shoot : ℤ) :
    (MatchConfig.mk' tb g1 g2 p1 p2 v1 v2 sap etap atap ng gp og pp vp
        shoot).isOk = false ↔
      (¬ (|ng + gp + og + pp - 1| ≤ 1 / 1000000 + 1 / 100000)
        ∨ sap > 1 ∨ etap > 1 ∨ atap > 1 ∨ ng > 1 ∨ gp > 1 ∨ og > 1 ∨ pp > 1
        ∨ vp > 1) := by
  unfold MatchConfig.mk'
  split_ifs <;> (try simp_all [ite_error_isOk])
  all_goals (try simp_all [Except.isOk, Except.toBool])
  all_goals (split_ifs <;> simp_all)

/-- Counterexample for C6: the default configuration with the VAR
probability replaced by -0.5 — a *_probability field outside [0, 1] that
leaves the four outcome-type probabilities summing to 1 — is accepted by
construction. -/
theorem matchconfig_negative_accepted :
    (MatchConfig.mk' TieBreaker.on_tie_extra_time_and_penalties (1 / 2) (3 / 2)
        (3 / 4) (7 / 4) 1 2 (15 / 100) (30 / 100) (45 / 100) (72 / 100)
        (18 / 100) (2 / 100) (8 / 100) (-(1 / 2)) 5).isOk = true
    ∧ ((-(1 / 2) : ℚ) < 0) := by
  constructor
  · norm_num [MatchConfig.mk', Except.isOk]
    rfl
  · norm_num

/-- C7: for every pair of kick and dive directions and every outcome of the
internal random draw, penalty resolution never yields is_goal and is_out
both true, and every Penalty built by create_player_kicked_penalty
satisfies the exclusivity invariant. -/
theorem penalty_goal_out_exclusive
    (kick_direction dive_direction : PenaltyDirection) (random_value : ℚ)
    (player_kicking goalkeeper : String) :
    (¬ ((Penalty.determine_penalty_outcome kick_direction dive_direction
          random_value).1 = true ∧
        (Penalty.determine_penalty_outcome kick_direction dive_direction
          random_value).2 = true))
    ∧ (¬ ((Penalty.create_player_kicked_penalty player_kicking goalkeeper
            kick_direction dive_direction random_value).is_goal = true ∧
          (Penalty.create_player_kicked_penalty player_kicking goalkeeper
            kick_direction dive_direction random_value).is_out = true)) := by
  unfold Penalty.create_player_kicked_penalty Penalty.determine_penalty_outcome
  constructor <;> (simp only [] ; split_ifs <;> simp)

/-- C3: advancing a match whose current action is an unresolved penalty
raises the pending-penalty error and returns the receiver state completely
unchanged. -/
theorem next_penalty_pending_error (m : Match) (o : Match.Oracle)
    (h : m.is_penalty_pending = true) :
    m.next o = (Except.error ("Penalty pending, could not advance to next action"), m) := by
  unfold Match.next
  simp [h]

/-- Witness for C3: a concrete match with a pending shootout penalty at the
current tick; advancing it fails and leaves the state untouched. -/
theorem next_penalty_pending_error_witness :
    matchPendingPenalty.next oracleNil =
      (Except.error ("Penalty pending, could not advance to next action"),
       matchPendingPenalty) :=
  next_penalty_pending_error matchPendingPenalty oracleNil (by decide)

/-- C9: an action constructed with type penalty and no attached Penalty has
its scorer and assist forced to none whatever the blueprint carried, is
never a goal, is a pending penalty, and adds nothing to the score of any
history it is appended to. -/
theorem pending_penalty_action_no_goal (team_atk_id : Fin 2) (phase : MatchPhase)
    (minute : Nat) (goal_player assist_player : Option String)
    (players_evaluation : List (String × Int)) (sentences : List String)
    (player_assigments support_assigments : List (String × String))
    (hist : List Action) :
    (Action.mk' team_atk_id phase minute ActionType.penalty goal_player
        assist_player players_evaluation sentences player_assigments
        support_assigments none).goal_player = none
    ∧ (Action.mk' team_atk_id phase minute ActionType.penalty goal_player
        assist_player players_evaluation sentences player_assigments
        support_assigments none).assist_player = none
    ∧ (Action.mk' team_atk_id phase minute ActionType.penalty goal_player
        assist_player players_evaluation sentences player_assigments
        support_assigments none).is_goal = false
    ∧ (Action.mk' team_atk_id phase minute ActionType.penalty goal_player
        assist_player players_evaluation sentences player_assigments
        support_assigments none).is_penalty_pending = true
    ∧ Match.scoreOf (hist ++
        [Action.mk' team_atk_id phase minute ActionType.penalty goal_player
          assist_player players_evaluation sentences player_assigments
          support_assigments none]) = Match.scoreOf hist := by
  refine ⟨by simp [Action.mk'], by simp [Action.mk'], by simp [Action.mk', Action.is_goal],
    by simp [Action.mk', Action.is_penalty_pending], ?_⟩
  unfold Match.scoreOf
  rw [List.foldl_append]
  simp [Action.mk', Action.is_goal]

/-- C10: appending an action to the history adds exactly one goal to the
team recorded as that action's attacking side when its goal_player is
non-null and nothing otherwise — in particular an own-goal action, whose
construction preserves the (defending-role) goal_player it was given,
credits the attacking team. -/
theorem score_credits_attacking_side (hist : List Action) (a : Action)
    (team_atk_id : Fin 2) (phase : MatchPhase) (minute : Nat) (scorer : String)
    (assist_player : Option String) (players_evaluation : List (String × Int))
    (sentences : List String)
    (player_assigments support_assigments : List (String × String))
    (penalty_info : Option Penalty) :
    (Match.scoreOf (hist ++ [a]) =
      if a.goal_player.isSome then
        if a.team_atk_id = 0 then
          ((Match.scoreOf hist).1 + 1, (Match.scoreOf hist).2)
        else
          ((Match.scoreOf hist).1, (Match.scoreOf hist).2 + 1)
      else Match.scoreOf hist)
    ∧ (Action.mk' team_atk_id phase minute ActionType.own_goal (some scorer)
        assist_player players_evaluation sentences player_assigments
        support_assigments penalty_info).goal_player = some scorer := by
  constructor
  · unfold Match.scoreOf
    rw [List.foldl_append]
    simp only [List.foldl_cons, List.foldl_nil]
    rfl
  · simp [Action.mk']

/-- C1: at the end of the second half (new minute beyond 45 plus accrued
stoppage), advance finishes the match unconditionally under allow_tie
(without entering extra time), moves a tied match to the first extra time
(extra-time-then-penalties policy) or to the shootout (penalties-only
policy) at minute 1, and finishes a decided match. -/
theorem second_half_end_transition (m : Match) (o : Match.Oracle)
    (hpend : m.is_penalty_pending = false)
    (hphase : m.curr_phase = MatchPhase.SECOND_HALF)
    (hend : ((m.curr_minute : ℤ) + 1) >
      45 + m.get_added_time_minutes MatchPhase.SECOND_HALF) :
    ((m.next o).1 = Except.ok ())
    ∧ (m.config.tie_breaker = TieBreaker.allow_tie →
        (m.next o).2.finished = true ∧
        (m.next o).2.curr_phase = MatchPhase.SECOND_HALF)
    ∧ (m.config.tie_breaker = TieBreaker.on_tie_extra_time_and_penalties →
        (Match.scoreOf m.actions).1 = (Match.scoreOf m.actions).2 →
        (m.next o).2.curr_phase = MatchPhase.FIRST_EXTRA_TIME ∧
        (m.next o).2.curr_minute = 1 ∧ (m.next o).2.finished = m.finished)
    ∧ (m.config.tie_breaker = TieBreaker.on_tie_penalties →
        (Match.scoreOf m.actions).1 = (Match.scoreOf m.actions).2 →
        (m.next o).2.curr_phase = MatchPhase.PENALTIES ∧
        (m.next o).2.curr_minute = 1 ∧ (m.next o).2.finished = m.finished)
    ∧ (m.config.tie_breaker ≠ TieBreaker.allow_tie →
        (Match.scoreOf m.actions).1 ≠ (Match.scoreOf m.actions).2 →
        (m.next o).2.finished = true) := by
  have hc : ((m.curr_minute + 1 : Nat) : ℤ) >
      ((MatchPhase.SECOND_HALF.duration_minutes : Nat) : ℤ) +
        pyRound (m.added_time MatchPhase.SECOND_HALF) := by
    have h := hend
    unfold Match.get_added_time_minutes at h
    simp only [MatchPhase.duration_minutes]
    push_cast
    omega
  unfold Match.next
  rw [hpend]
  simp only [Bool.false_eq_true, if_false]
  simp only [Match.get_added_time_minutes, Match.get_current_score]
  rw [hphase]
  rw [if_neg (by simp : ¬ (MatchPhase.SECOND_HALF = MatchPhase.PENALTIES))]
  rw [if_pos hc]
  rw [if_neg (by simp : ¬ (MatchPhase.SECOND_HALF = MatchPhase.FIRST_HALF))]
  rw [if_pos (rfl : MatchPhase.SECOND_HALF = MatchPhase.SECOND_HALF)]
  constructor
  · split_ifs <;> rfl
  refine ⟨?_, ?_, ?_, ?_⟩
  · intro hal
    rw [if_pos hal]
    exact ⟨rfl, rfl⟩
  · intro het htie
    have hal : ¬ (m.config.tie_breaker = TieBreaker.allow_tie) := by
      rw [het] ; simp
    rw [if_neg hal, if_pos htie, if_pos het]
    exact ⟨rfl, rfl, rfl⟩
  · intro hop htie
    have hal : ¬ (m.config.tie_breaker = TieBreaker.allow_tie) := by
      rw [hop] ; simp
    have het : ¬ (m.config.tie_breaker = TieBreaker.on_tie_extra_time_and_penalties) := by
      rw [hop] ; simp
    rw [if_neg hal, if_pos htie, if_neg het]
    exact ⟨rfl, rfl, rfl⟩
  · intro hal htie
    rw [if_neg hal, if_neg htie]

/-- Witness for C1: a concrete tied match at minute 45 of the second half
under the default (extra-time-then-penalties) policy moves to the first
extra time at minute 1 without finishing. -/
theorem second_half_end_transition_witness :
    (matchSecondHalfEnd.next oracleNil).2.curr_phase = MatchPhase.FIRST_EXTRA_TIME
    ∧ (matchSecondHalfEnd.next oracleNil).2.curr_minute = 1
    ∧ (matchSecondHalfEnd.next oracleNil).2.finished = matchSecondHalfEnd.finished :=
  (second_half_end_transition matchSecondHalfEnd oracleNil (by decide) (by decide)
    (by norm_num [matchSecondHalfEnd, Match.get_added_time_minutes, pyRound,
      Rat.floor])).2.2.1 (by decide) (by decide)

/-- C2: a shootout minute either ends the match immediately — when the
kicking side, determined by minute parity, cannot reach the other side's
score even by winning all its remaining kicks (max(shoot_count -
(minute-1)//2, 1)) — appending no action, or appends exactly one pending
penalty action for the kicking side at the current minute, with no
narration phrases and no resolved Penalty. -/
theorem shootout_minute_transition (m : Match) (o : Match.Oracle)
    (hpend : m.is_penalty_pending = false)
    (hphase : m.curr_phase = MatchPhase.PENALTIES) :
    (shootoutCannotCatchUp m (m.curr_minute + 1) →
      (m.next o).1 = Except.ok ()
      ∧ (m.next o).2.finished = true
      ∧ (m.next o).2.actions = m.actions
      ∧ (m.next o).2.curr_minute = m.curr_minute + 1
      ∧ (m.next o).2.curr_phase = MatchPhase.PENALTIES)
    ∧ (¬ shootoutCannotCatchUp m (m.curr_minute + 1) →
      (m.next o).1 = Except.ok ()
      ∧ (m.next o).2.finished = m.finished
      ∧ (m.next o).2.curr_minute = m.curr_minute + 1
      ∧ ∃ a, (m.next o).2.actions = m.actions ++ [a]
        ∧ a.type = ActionType.penalty
        ∧ a.penalty_info = none
        ∧ a.sentences = []
        ∧ a.goal_player = none
        ∧ a.assist_player = none
        ∧ a.team_atk_id = Match.shootoutKicking (m.curr_minute + 1)
        ∧ a.minute = m.curr_minute + 1
        ∧ a.phase = MatchPhase.PENALTIES) := by
  unfold Match.next
  rw [hpend]
  simp only [Bool.false_eq_true, if_false]
  simp only [Match.get_current_score]
  rw [hphase]
  rw [if_pos (rfl : MatchPhase.PENALTIES = MatchPhase.PENALTIES)]
  unfold shootoutCannotCatchUp
  constructor
  · intro hcond
    rw [if_pos hcond]
    exact ⟨rfl, rfl, rfl, rfl, rfl⟩
  · intro hcond
    rw [if_neg hcond]
    refine ⟨rfl, rfl, rfl, ?_⟩
    refine ⟨Action.create_from_blueprint Match.penaltyShootoutBlueprint MatchPhase.PENALTIES
      (m.curr_minute + 1) (Match.shootoutKicking (m.curr_minute + 1)) m.teams m.referee
      m.stadium_name o.atkOrder o.defOrder, rfl, ?_, ?_, ?_, ?_, ?_, ?_, ?_, ?_⟩
    all_goals
      simp [Action.create_from_blueprint, Action.mk', Match.penaltyShootoutBlueprint]

/-- Witness for C2: the first shootout kick of a concrete match appends one
pending penalty action, and a concrete shootout in which the side about to
kick trails by three with one kick remaining finishes at once with no new
action. -/
theorem shootout_minute_transition_witness :
    ((matchShootoutStart.next oracleNil).1 = Except.ok ()
      ∧ (matchShootoutStart.next oracleNil).2.finished = matchShootoutStart.finished
      ∧ (matchShootoutStart.next oracleNil).2.curr_minute = matchShootoutStart.curr_minute + 1
      ∧ ∃ a, (matchShootoutStart.next oracleNil).2.actions = matchShootoutStart.actions ++ [a]
        ∧ a.type = ActionType.penalty
        ∧ a.penalty_info = none
        ∧ a.sentences = []
        ∧ a.goal_player = none
        ∧ a.assist_player = none
        ∧ a.team_atk_id = Match.shootoutKicking (matchShootoutStart.curr_minute + 1)
        ∧ a.minute = matchShootoutStart.curr_minute + 1
        ∧ a.phase = MatchPhase.PENALTIES)
    ∧ ((matchShootoutDecided.next oracleNil).1 = Except.ok ()
      ∧ (matchShootoutDecided.next oracleNil).2.finished = true
      ∧ (matchShootoutDecided.next oracleNil).2.actions = matchShootoutDecided.actions
      ∧ (matchShootoutDecided.next oracleNil).2.curr_minute = matchShootoutDecided.curr_minute + 1
      ∧ (matchShootoutDecided.next oracleNil).2.curr_phase = MatchPhase.PENALTIES) :=
  ⟨(shootout_minute_transition matchShootoutStart oracleNil (by decide) rfl).2
      (by unfold shootoutCannotCatchUp ; decide),
   (shootout_minute_transition matchShootoutDecided oracleNil (by decide) rfl).1
      (by unfold shootoutCannotCatchUp ; decide)⟩

/-- C5 (amended): validate succeeds exactly when the goal-needs-scorer
guard passes, every phrase is a well-formed format string (a malformed one
propagates the parser's ValueError) whose placeholder tokens all belong to
the recognized set — which uses atk_goalie and def_goalie, not the
atk_goalkeeper/def_goalkeeper names that player binding assigns — and
scorer, assist and evaluation keys are brace-wrapped members of the
recognized player subset with marks in [-3, 3]. atk_goalie is recognized
while atk_goalkeeper is not, although the binding map always assigns
atk_goalkeeper. -/
theorem validate_recognized_set (bp : ActionBlueprint) :
    (bp.validate = Except.ok () ↔
      (¬ (bp.action_type = ActionType.goal ∧ bp.scorer_player = none))
      ∧ (∀ s ∈ bp.phrases, ∃ ks, extract_keys_from_format_string s = Except.ok ks
          ∧ ∀ k ∈ ks, k ∈ get_all_valid_placeholders)
      ∧ (∀ sc, bp.scorer_player = some sc →
          sc ∈ get_player_valid_placeholders.map braced)
      ∧ (∀ asst, bp.assist_player = some asst →
          asst ∈ get_player_valid_placeholders.map braced)
      ∧ (∀ pe ∈ bp.player_evaluation,
          pe.1 ∈ get_player_valid_placeholders.map braced ∧ -3 ≤ pe.2 ∧ pe.2 ≤ 3))
    ∧ ("atk_goalie" ∈ get_all_valid_placeholders)
    ∧ (¬ ("atk_goalkeeper" ∈ get_all_valid_placeholders))
    ∧ (∀ (atk_team def_team : Team) (ao dord : List String),
        "atk_goalkeeper" ∈
          (MatchAction.player_assignments atk_team def_team ao dord).map Prod.fst) := by
  have hfind : ∀ s : String,
      (find_invalid_keys s get_all_valid_placeholders = Except.ok [] ↔
        ∃ ks, extract_keys_from_format_string s = Except.ok ks
          ∧ ∀ k ∈ ks, k ∈ get_all_valid_placeholders) := by
    intro s
    unfold find_invalid_keys
    cases hx : extract_keys_from_format_string s with
    | error e => simp
    | ok keys => simp
  refine ⟨?_, by decide, by decide, ?_⟩
  · unfold ActionBlueprint.validate
    by_cases h0 : bp.action_type = ActionType.goal ∧ bp.scorer_player = none
    · rw [if_pos h0]
      constructor
      · intro hcontra
        exact absurd hcontra (by simp)
      · intro hconj
        exact absurd h0 hconj.1
    · rw [if_neg h0]
      cases hp : validatePhrases 0 bp.phrases with
      | error e =>
        have hnp : ¬ ∀ s ∈ bp.phrases,
            find_invalid_keys s get_all_valid_placeholders = Except.ok [] := by
          rw [← validatePhrases_ok 0]
          rw [hp]
          simp
        constructor
        · intro hcontra
          exact absurd hcontra (by simp)
        · intro hconj
          exact absurd (fun s hs => (hfind s).mpr (hconj.2.1 s hs)) hnp
      | ok u =>
        cases u
        have hpp : ∀ s ∈ bp.phrases,
            ∃ ks, extract_keys_from_format_string s = Except.ok ks
              ∧ ∀ k ∈ ks, k ∈ get_all_valid_placeholders :=
          fun s hs => (hfind s).mp ((validatePhrases_ok 0 bp.phrases).mp hp s hs)
        cases hsc : validateScorer bp.scorer_player with
        | error e =>
          have hns : ¬ ∀ sc, bp.scorer_player = some sc →
              sc ∈ get_player_valid_placeholders.map braced := by
            rw [← validateScorer_ok]
            rw [hsc]
            simp
          constructor
          · intro hcontra
            exact absurd hcontra (by simp)
          · intro hconj
            exact absurd hconj.2.2.1 hns
        | ok u =>
          cases u
          cases hasst : validateAssist bp.assist_player with
          | error e =>
            have hna : ¬ ∀ asst, bp.assist_player = some asst →
                asst ∈ get_player_valid_placeholders.map braced := by
              rw [← validateAssist_ok]
              rw [hasst]
              simp
            constructor
            · intro hcontra
              exact absurd hcontra (by simp)
            · intro hconj
              exact absurd hconj.2.2.2.1 hna
          | ok u =>
            cases u
            rw [validateEvaluations_ok]
            constructor
            · intro hevs
              exact ⟨h0, hpp, (validateScorer_ok _).mp hsc,
                (validateAssist_ok _).mp hasst, hevs⟩
            · intro hconj
              exact hconj.2.2.2.2
  · intro atk_team def_team ao dord
    simp [MatchAction.player_assignments]

/-- Counterexample for C5: a phrase using atk_goalkeeper — the placeholder
the player binding assigns for the attacking goalkeeper — fails validation,
which names the token, while a phrase using atk_goalie passes validation
although the binding never assigns that name; moreover a phrase that is a
lone closing brace contains no placeholder token at all, yet validation
fails with the parser's ValueError. -/
theorem validate_goalkeeper_mismatch_cex :
    bpGoalkeeperPhrase.validate =
      Except.error ("In sentence 0 invalid keys were found: atk_goalkeeper. Sentence: "
        ++ braced ("atk_goalkeeper"))
    ∧ "atk_goalkeeper" ∈
        (MatchAction.player_assignments teamA teamB oracleNil.atkOrder
          oracleNil.defOrder).map Prod.fst
    ∧ bpGoaliePhrase.validate = Except.ok ()
    ∧ ¬ ("atk_goalie" ∈
        (MatchAction.player_assignments teamA teamB oracleNil.atkOrder
          oracleNil.defOrder).map Prod.fst)
    ∧ bpLoneBrace.validate =
        Except.error ("Single '\x7d' encountered in format string") :=
  ⟨rfl, by decide, rfl, by decide, rfl⟩

/-- C8: per request, the produce loop makes at most MAX_RETRIES = 3
generate-and-validate attempts and yields a blueprint exactly when one of
the attempts 0, 1, 2 succeeds; on a concrete request whose every attempt
fails, the worker stores the re-raised error (the failure is not dropped)
and enqueues nothing — so the waiting get(), which only observes the result
queue, is never completed and the error never reaches it. -/
theorem produce_retry_exhaustion :
    (∀ gen : Nat → Except String ActionBlueprint,
      (processRequest gen).isOk = true ↔
        ∃ i < MAX_RETRIES, (attemptOutcome gen i).isOk = true)
    ∧ (produceStep genAlwaysFails providerOneRequest).worker_error =
        some ("content provider failed")
    ∧ (produceStep genAlwaysFails providerOneRequest).results = []
    ∧ (produceStep genAlwaysFails providerOneRequest).requests = []
    ∧ getOutcome (produceStep genAlwaysFails providerOneRequest) = none := by
  refine ⟨?_, rfl, rfl, rfl, rfl⟩
  intro gen
  have e1 : processRequest gen =
      (match attemptOutcome gen 0 with
        | Except.ok bp => Except.ok bp
        | Except.error _ =>
          match attemptOutcome gen 1 with
          | Except.ok bp => Except.ok bp
          | Except.error _ => attemptOutcome gen 2) := rfl
  rw [e1]
  cases h0 : attemptOutcome gen 0 with
  | ok bp =>
    constructor
    · intro _
      exact ⟨0, by norm_num [MAX_RETRIES], by rw [h0] ; rfl⟩
    · intro _
      rfl
  | error e =>
    cases h1 : attemptOutcome gen 1 with
    | ok bp =>
      constructor
      · intro _
        exact ⟨1, by norm_num [MAX_RETRIES], by rw [h1] ; rfl⟩
      · intro _
        rfl
    | error e' =>
      cases h2 : attemptOutcome gen 2 with
      | ok bp =>
        constructor
        · intro _
          exact ⟨2, by norm_num [MAX_RETRIES], by rw [h2] ; rfl⟩
        · intro _
          rfl
      | error e'' =>
        constructor
        · intro hcontra
          exact absurd hcontra (by simp [Except.isOk, Except.toBool])
        · rintro ⟨i, hi, hok⟩
          have hi3 : i < 3 := by simpa [MAX_RETRIES] using hi
          interval_cases i <;> simp_all [Except.isOk, Except.toBool]

end TextCalcio
